import Mathlib

/-!
Verification of the shopping-cart state-synchronization core
(repository `shoppingcart_options`).

The repository contains three React variants of the same cart:
* `src/shopping-cart-hybrid/src/App.jsx` — the hybrid variant
  (localStorage fast tier + debounced IndexedDB durable tier +
  BroadcastChannel notifier);
* `src/unnamed/part_000` — the IndexedDB variant (per-mutation awaited
  durable writes with rollback attempts on failure, bare
  `CART_UPDATED` signals);
* `src/unnamed/part_001` — the pure in-memory Context variant.

This file shallowly embeds the data model, the pure mutation functions,
and the effectful mutation pipelines of the hybrid and IndexedDB
variants, and proves or refutes the specification claims about them.
JavaScript numbers are modelled as `Int` (all arithmetic in the sources
is integer-valued on the shipped data); ordered JS arrays are `List`s.
-/

namespace Cart

/-- A cart line item.  In the shipped program products are exactly
`{ id, name, price }` (see `SAMPLE_PRODUCTS` in every variant), so a
line item carries exactly these four fields. -/
structure LineItem where
  id : Nat
  name : String
  price : Int
  quantity : Int
  deriving DecidableEq, Repr

/-- A catalog product, as found in `SAMPLE_PRODUCTS`: `{ id, name, price }`. -/
structure Product where
  id : Nat
  name : String
  price : Int
  deriving DecidableEq, Repr

/-- A snapshot: the ordered sequence of line items (a JS array). -/
abbrev Snapshot := List LineItem

/-- The pure core of `addItem` (identical in all three variants, e.g.
`part_001` lines 9–21 and `App.jsx` lines 149–163): if an item with
`product.id` exists, increment its quantity by 1 via `map`; otherwise
append `{ ...product, quantity: 1 }`. -/
def addItem (product : Product) (prev : Snapshot) : Snapshot :=
  if prev.any (fun item => item.id == product.id) then
    prev.map (fun item =>
      if item.id == product.id then { item with quantity := item.quantity + 1 }
      else item)
  else
    prev ++ [{ id := product.id, name := product.name,
               price := product.price, quantity := 1 }]

/-- The pure core of `updateQuantity` (`part_001` lines 23–30,
`App.jsx` lines 165–175): early return when `quantity < 1`, otherwise
`map`, overwriting the quantity of the item whose id matches. -/
def updateQuantity (productId : Nat) (quantity : Int) (prev : Snapshot) :
    Snapshot :=
  if quantity < 1 then prev
  else prev.map (fun item =>
    if item.id == productId then { item with quantity := quantity } else item)

/-- The pure core of `removeItem` (`part_001` lines 32–34, `App.jsx`
lines 177–183): `filter(item => item.id !== productId)`. -/
def removeItem (productId : Nat) (prev : Snapshot) : Snapshot :=
  prev.filter (fun item => item.id != productId)

/-- Function `total`: `items.reduce((sum, item) => sum + item.price * item.quantity, 0)`
(`App.jsx` line 204, `part_001` line 42). -/
def total (items : Snapshot) : Int :=
  items.foldl (fun sum item => sum + item.price * item.quantity) 0

end Cart

namespace Hybrid

/-! ## The hybrid variant (`src/shopping-cart-hybrid/src/App.jsx`)

State of one browser context running the hybrid `CartProvider`:
the React `items` state, the localStorage slot, the IndexedDB contents,
whether `dbRef.current` is set, the pending debounce timer
(`syncTimeoutRef`: `setTimeout` after `clearTimeout`, so at most one
handle exists — modelled as an `Option` holding the captured `newItems`),
and event logs of the BroadcastChannel messages posted and of the
IndexedDB transactions performed, in program order. -/

open Cart

/-- An IndexedDB readwrite transaction performed by this context:
either the clear-then-add-all of the debounced sync
(`App.jsx` lines 118–135) or the bare `store.clear()` of `clearCart`
(`App.jsx` lines 189–191). -/
inductive DurableOp where
  | putAll (items : Snapshot)
  | clearAll
  deriving DecidableEq, Repr

/-- State of one hybrid-variant context. `fast = none` models an absent
localStorage key (after `removeItem`), `some s` a stored serialization
of `s`. `pending = some s` models a live `syncTimeoutRef` whose callback
captured `newItems = s`. -/
structure State where
  memory : Snapshot
  fast : Option Snapshot
  durable : Snapshot
  db : Bool
  pending : Option Snapshot
  sent : List Snapshot
  writes : List DurableOp
  deriving DecidableEq, Repr

/-- A fresh context after cold start with an initialized DB and empty
stores. -/
def State.init : State :=
  { memory := [], fast := none, durable := [], db := true,
    pending := none, sent := [], writes := [] }

/-- Callback `syncToIndexedDB` (`App.jsx` lines 109–140): `clearTimeout` any
pending handle, then `setTimeout` a new 1000 ms callback capturing
`newItems`.  Only the scheduling happens now; the transaction itself
runs at `timerFire`. -/
def syncToIndexedDB (newItems : Snapshot) (st : State) : State :=
  { st with pending := some newItems }

/-- Callback `notifyOtherTabs` (`App.jsx` lines 102–106):
`channel.postMessage({ type: CART_UPDATED, items: newItems })`. -/
def notifyOtherTabs (newItems : Snapshot) (st : State) : State :=
  { st with sent := st.sent ++ [newItems] }

/-- Callback `updateStorage` (`App.jsx` lines 143–147): synchronous
`localStorage.setItem`, then schedule the debounced IndexedDB sync,
then post the notification — all in the same tick. -/
def updateStorage (newItems : Snapshot) (st : State) : State :=
  notifyOtherTabs newItems (syncToIndexedDB newItems { st with fast := some newItems })

/-- The debounce timer firing (the `setTimeout` callback, `App.jsx`
lines 114–139), with the transaction succeeding: if `dbRef.current` is
unset the callback returns at once; otherwise it clears the store and
re-adds every captured item. -/
def timerFire (st : State) : State :=
  match st.pending with
  | none => st
  | some s =>
    if st.db then
      { st with pending := none, durable := s,
                writes := st.writes ++ [DurableOp.putAll s] }
    else
      { st with pending := none }

/-- The debounce timer firing with the IndexedDB transaction failing:
the `catch` (`App.jsx` lines 136–138) only logs — no rollback, no
retry, no notification withdrawal. -/
def timerFireFail (st : State) : State :=
  { st with pending := none }

/-- Stateful `addItem` (`App.jsx` lines 149–163): compute the new
snapshot, commit it to React state, then `updateStorage`. -/
def addItemS (product : Product) (st : State) : State :=
  let newItems := addItem product st.memory
  updateStorage newItems { st with memory := newItems }

/-- Stateful `updateQuantity` (`App.jsx` lines 165–175): early return
when `quantity < 1`; otherwise commit the mapped snapshot and
`updateStorage`. -/
def updateQuantityS (productId : Nat) (quantity : Int) (st : State) : State :=
  if quantity < 1 then st
  else
    let newItems := st.memory.map (fun item =>
      if item.id == productId then { item with quantity := quantity } else item)
    updateStorage newItems { st with memory := newItems }

/-- Stateful `removeItem` (`App.jsx` lines 177–183). -/
def removeItemS (productId : Nat) (st : State) : State :=
  let newItems := st.memory.filter (fun item => item.id != productId)
  updateStorage newItems { st with memory := newItems }

/-- Callback `clearCart` (`App.jsx` lines 185–194): empty the React state,
remove the localStorage key, immediately `store.clear()` the IndexedDB
store when the DB handle exists, and post a `[]` notification.  The
pending debounce handle is NOT cancelled. -/
def clearCart (st : State) : State :=
  { st with memory := [], fast := none,
            durable := if st.db then [] else st.durable,
            writes := st.writes ++ (if st.db then [DurableOp.clearAll] else []),
            sent := st.sent ++ [[]] }

/-- The mutations that route through `updateStorage` and hence through
the debounced durable sync (`addItem`, `updateQuantity`, `removeItem`). -/
inductive DebouncedOp where
  | add (product : Product)
  | upd (productId : Nat) (quantity : Int)
  | rem (productId : Nat)
  deriving DecidableEq, Repr

/-- Whether the mutation call actually commits and (re)schedules the
debounced durable sync: `addItem` and `removeItem` always do,
`updateQuantity` only when the requested quantity is at least 1 (below
that it returns before touching anything). -/
def DebouncedOp.schedules : DebouncedOp → Bool
  | DebouncedOp.add _ => true
  | DebouncedOp.upd _ q => decide (1 ≤ q)
  | DebouncedOp.rem _ => true

/-- Run one debounced mutation. -/
def runOp (op : DebouncedOp) (st : State) : State :=
  match op with
  | DebouncedOp.add p => addItemS p st
  | DebouncedOp.upd i q => updateQuantityS i q st
  | DebouncedOp.rem i => removeItemS i st

/-- Run a burst of debounced mutations back to back (each within the
1000 ms window of the previous one, so no timer fires in between). -/
def runOps (ops : List DebouncedOp) (st : State) : State :=
  ops.foldl (fun s op => runOp op s) st

/-- Cold start (`App.jsx` lines 35–79).  First effect: the synchronous
localStorage read — `setItems(JSON.parse(stored))` when present and
well-formed, nothing otherwise.  Second effect: the IndexedDB `getAll`
completes with `durableResult`; its `onsuccess` replaces the snapshot
and mirrors it to localStorage ONLY when `result.length > 0`, then sets
`loading` to false. -/
structure ColdState where
  memory : Snapshot
  fast : Option Snapshot
  loading : Bool
  deriving DecidableEq, Repr

/-- The two cold-start effects composed, fast-tier read first, durable
read completion second. -/
def coldLoad (fastStored : Option Snapshot) (durableResult : Snapshot) :
    ColdState :=
  let m0 := match fastStored with | some s => s | none => []
  if durableResult.length > 0 then
    { memory := durableResult, fast := some durableResult, loading := false }
  else
    { memory := m0, fast := fastStored, loading := false }

/-- Reconciliation `handleMessage` (`App.jsx` lines 85–92): on a
`CART_UPDATED` message, `setItems(event.data.items)` is called only when
`JSON.stringify(items) !== JSON.stringify(event.data.items)`.  On arrays
of `{id, name, price, quantity}` records built by this program the
serializations are equal exactly when the snapshots agree element-wise
on the four fields, i.e. exactly when the `Snapshot`s are equal, so the
guard is modelled as decidable equality.  The returned `Bool` records
whether `setItems` was invoked. -/
def handleMessage (current incoming : Snapshot) : Snapshot × Bool :=
  if current = incoming then (current, false) else (incoming, true)

end Hybrid

namespace IDB

/-! ## The IndexedDB variant (`src/unnamed/part_000`)

Each mutation awaits its own IndexedDB write, notifies other tabs with a
bare `CART_UPDATED` signal only after the write succeeds, and on failure
runs a `setItems` that attempts to roll back the optimistic update.  The
write outcome is passed in as a `Bool` (`true` = the awaited request
fired `onsuccess`). -/

open Cart

/-- State of one IndexedDB-variant context: the React `items` state, the
`cart` object store (keyed by `id`), the number of bare `CART_UPDATED`
signals posted, and whether `db` is set. -/
structure IState where
  memory : Snapshot
  durable : Snapshot
  notifs : Nat
  db : Bool
  deriving DecidableEq, Repr

/-- IndexedDB `store.put(item)` on a store with `keyPath: id`: replace
the record with the same key if present, insert otherwise. -/
def putById (item : LineItem) (store : Snapshot) : Snapshot :=
  if store.any (fun it => it.id == item.id) then
    store.map (fun it => if it.id == item.id then item else it)
  else
    store ++ [item]

/-- Mutation `addItem` of the IndexedDB variant (`part_000` lines 78–109).  On
failure the `catch` runs
`setItems(prev => existingItem ? prev : prev.filter(item => item.id !== product.id))`:
when the item already existed the updater returns `prev` unchanged —
the incremented quantity is kept, not rolled back. -/
def addItem (p : Product) (ok : Bool) (st : IState) : IState :=
  if !st.db then st
  else
    let existing := st.memory.find? (fun it => it.id == p.id)
    let newItem := match existing with
      | some it => { it with quantity := it.quantity + 1 }
      | none => { id := p.id, name := p.name, price := p.price, quantity := 1 }
    let optimistic := match existing with
      | some _ => st.memory.map (fun it => if it.id == p.id then newItem else it)
      | none => st.memory ++ [newItem]
    if ok then
      { st with memory := optimistic, durable := putById newItem st.durable,
                notifs := st.notifs + 1 }
    else
      { st with memory := match existing with
          | some _ => optimistic
          | none => optimistic.filter (fun it => it.id != p.id) }

/-- Mutation `updateQuantity` of the IndexedDB variant (`part_000` lines
111–139).  On failure the `catch` runs
`setItems(prev => prev.map(item => item.id === productId ? { ...item, quantity: item.quantity } : item))`
— it overwrites the quantity with itself, leaving the optimistic value
in place. -/
def updateQuantity (productId : Nat) (quantity : Int) (ok : Bool)
    (st : IState) : IState :=
  if !st.db || quantity < 1 then st
  else
    match st.memory.find? (fun it => it.id == productId) with
    | none => st
    | some item =>
      let updatedItem := { item with quantity := quantity }
      let optimistic := st.memory.map (fun it =>
        if it.id == productId then updatedItem else it)
      if ok then
        { st with memory := optimistic,
                  durable := putById updatedItem st.durable,
                  notifs := st.notifs + 1 }
      else
        { st with memory := optimistic.map (fun it =>
            if it.id == productId then { it with quantity := it.quantity }
            else it) }

/-- Mutation `removeItem` of the IndexedDB variant (`part_000` lines 141–164).
On failure the removed item, when there was one, is re-appended at the
END of the list (`setItems(prev => [...prev, removedItem])`), not at its
original position. -/
def removeItem (productId : Nat) (ok : Bool) (st : IState) : IState :=
  if !st.db then st
  else
    let removedItem := st.memory.find? (fun it => it.id == productId)
    let optimistic := st.memory.filter (fun it => it.id != productId)
    if ok then
      { st with memory := optimistic,
                durable := st.durable.filter (fun it => it.id != productId),
                notifs := st.notifs + 1 }
    else
      match removedItem with
      | some r => { st with memory := optimistic ++ [r] }
      | none => { st with memory := optimistic }

/-- Mutation `clearCart` of the IndexedDB variant (`part_000` lines 166–187).
Its failure path `setItems(oldItems)` restores the captured pre-mutation
array exactly. -/
def clearCart (ok : Bool) (st : IState) : IState :=
  if !st.db then st
  else if ok then
    { st with memory := [], durable := [], notifs := st.notifs + 1 }
  else
    st

end IDB

namespace Cart

/-- Snapshots reachable from the empty snapshot through the four
mutation operations, with every added product carrying a non-negative
price (the hypothesis of the claim; the shipped `SAMPLE_PRODUCTS` all
satisfy it). -/
inductive Reachable : Snapshot → Prop
  | empty : Reachable []
  | add (p : Product) (hp : 0 ≤ p.price) {s : Snapshot} :
      Reachable s → Reachable (addItem p s)
  | upd (productId : Nat) (quantity : Int) {s : Snapshot} :
      Reachable s → Reachable (updateQuantity productId quantity s)
  | rem (productId : Nat) {s : Snapshot} :
      Reachable s → Reachable (removeItem productId s)
  | clear {s : Snapshot} : Reachable s → Reachable []

end Cart

namespace Cart

/-! ## Shared concrete data (from `SAMPLE_PRODUCTS`) -/

/-- The first sample product, `{ id: 1, name: Laptop, price: 999 }`. -/
def laptop : Product := { id := 1, name := "Laptop", price := 999 }

/-- The line item produced by adding `laptop` to an empty cart. -/
def laptopItem : LineItem :=
  { id := 1, name := "Laptop", price := 999, quantity := 1 }

/-! ## Helper lemmas -/

/-- Mapping a function that fixes every element of a list is the
identity. -/
theorem map_id_of_mem {α : Type} (l : List α) (f : α → α)
    (h : ∀ x ∈ l, f x = x) : l.map f = l := by
  induction l with
  | nil => rfl
  | cons a t ih =>
    simp only [List.map_cons]
    rw [h a (by simp), ih (fun x hx => h x (by simp [hx]))]

/-- Adding a product whose id is absent appends a quantity-1 item. -/
theorem addItem_of_fresh (p : Product) (s : Snapshot)
    (hfresh : ∀ it ∈ s, it.id ≠ p.id) :
    addItem p s = s ++ [{ id := p.id, name := p.name, price := p.price,
                          quantity := 1 }] := by
  unfold addItem
  have hany : s.any (fun item => item.id == p.id) = false := by
    simp only [List.any_eq_false]
    intro it hit
    simpa using hfresh it hit
  rw [hany]
  simp

/-- Adding a product whose id is carried only by the trailing item
increments that item's quantity in place. -/
theorem addItem_of_last (p : Product) (s : Snapshot) (k : Int)
    (hfresh : ∀ it ∈ s, it.id ≠ p.id) :
    addItem p (s ++ [{ id := p.id, name := p.name, price := p.price,
                       quantity := k }]) =
      s ++ [{ id := p.id, name := p.name, price := p.price,
              quantity := k + 1 }] := by
  unfold addItem
  have hany : (s ++ [({ id := p.id, name := p.name, price := p.price,
                        quantity := k } : LineItem)]).any
      (fun item => item.id == p.id) = true := by
    simp
  rw [hany, if_pos rfl, List.map_append]
  congr 1
  · exact map_id_of_mem s _ (fun it hit => by
      simp [hfresh it hit])
  · simp

/-- C4: starting from a snapshot containing no item with `p.id`, `n ≥ 1`
successive `addItem p` calls append exactly one line item with id
`p.id`, quantity `n`, and name/price taken from `p`, leaving every other
item unchanged in its original position. -/
theorem C4_addItem_repeat (p : Product) (n : Nat) (hn : 1 ≤ n)
    (s : Snapshot) (hfresh : ∀ it ∈ s, it.id ≠ p.id) :
    (addItem p)^[n] s =
      s ++ [{ id := p.id, name := p.name, price := p.price,
              quantity := (n : Int) }] ∧
    ((addItem p)^[n] s).countP (fun it => it.id == p.id) = 1 := by
  have key : (addItem p)^[n] s =
      s ++ [{ id := p.id, name := p.name, price := p.price,
              quantity := (n : Int) }] := by
    induction n, hn using Nat.le_induction with
    | base =>
      rw [Function.iterate_one]
      exact addItem_of_fresh p s hfresh
    | succ m hm ih =>
      rw [Function.iterate_succ_apply', ih, addItem_of_last p s _ hfresh]
      norm_num
  refine ⟨key, ?_⟩
  rw [key]
  rw [List.countP_append]
  have h0 : s.countP (fun it => it.id == p.id) = 0 := by
    rw [List.countP_eq_zero]
    intro it hit
    simpa using hfresh it hit
  rw [h0]
  simp [List.countP_cons]

/-- Concrete instantiation of `C4_addItem_repeat`: two `addItem laptop`
calls on the empty cart yield one Laptop line item of quantity 2. -/
theorem C4_addItem_repeat_witness :
    (addItem laptop)^[2] [] =
      [{ id := 1, name := "Laptop", price := 999, quantity := 2 }] ∧
    ((addItem laptop)^[2] []).countP (fun it => it.id == 1) = 1 := by
  have h := C4_addItem_repeat laptop 2 (by decide) []
    (by intro it hit; simp at hit)
  simpa using h

/-- C6: the reconciliation handler replaces the in-memory snapshot with
the received one exactly when the two differ under element-wise value
equality, and leaves it unchanged when they are value-equal. -/
theorem C6_handleMessage_iff (current incoming : Snapshot) :
    ((Hybrid.handleMessage current incoming).2 = true ↔ current ≠ incoming) ∧
    (current = incoming → (Hybrid.handleMessage current incoming).1 = current) ∧
    (current ≠ incoming → (Hybrid.handleMessage current incoming).1 = incoming) := by
  unfold Hybrid.handleMessage
  by_cases h : current = incoming <;> simp [h]

/-- Concrete instantiation of `C6_handleMessage_iff`: an incoming
snapshot differing from the current one is adopted, an identical one is
ignored. -/
theorem C6_handleMessage_iff_witness :
    ((Hybrid.handleMessage [] [laptopItem]).2 = true ↔
      ([] : Snapshot) ≠ [laptopItem]) ∧
    (Hybrid.handleMessage [laptopItem] [laptopItem]).1 = [laptopItem] := by
  refine ⟨(C6_handleMessage_iff [] [laptopItem]).1, ?_⟩
  exact (C6_handleMessage_iff [laptopItem] [laptopItem]).2.1 rfl

/-- C7: `updateQuantity` is a no-op when the requested quantity is below
1 or no item carries the id; otherwise it overwrites exactly the
matching item's quantity, preserving all other fields and items. -/
theorem C7_updateQuantity_cases (productId : Nat) (q : Int) (s : Snapshot) :
    (q < 1 → updateQuantity productId q s = s) ∧
    ((∀ it ∈ s, it.id ≠ productId) → updateQuantity productId q s = s) ∧
    (1 ≤ q → updateQuantity productId q s =
      s.map (fun it =>
        if it.id = productId then { it with quantity := q } else it)) := by
  refine ⟨?_, ?_, ?_⟩
  · intro hq
    unfold updateQuantity
    rw [if_pos hq]
  · intro habsent
    unfold updateQuantity
    by_cases hq : q < 1
    · rw [if_pos hq]
    · rw [if_neg hq]
      exact map_id_of_mem s _ (fun it hit => by simp [habsent it hit])
  · intro hq
    unfold updateQuantity
    rw [if_neg (not_lt.mpr hq)]
    apply List.map_congr_left
    intro it _
    by_cases h : it.id = productId <;> simp [h]

/-- Concrete instantiation of `C7_updateQuantity_cases`: quantity 0 is
rejected, quantity 5 overwrites the Laptop line. -/
theorem C7_updateQuantity_cases_witness :
    updateQuantity 1 0 [laptopItem] = [laptopItem] ∧
    updateQuantity 7 5 [laptopItem] = [laptopItem] ∧
    updateQuantity 1 5 [laptopItem] =
      [laptopItem].map (fun it =>
        if it.id = 1 then { it with quantity := 5 } else it) := by
  refine ⟨(C7_updateQuantity_cases 1 0 [laptopItem]).1 (by decide),
          (C7_updateQuantity_cases 7 5 [laptopItem]).2.1 ?_,
          (C7_updateQuantity_cases 1 5 [laptopItem]).2.2 (by decide)⟩
  intro it hit
  simp only [List.mem_singleton] at hit
  subst hit
  decide

end Cart

namespace Hybrid

open Cart

/-- C8: on a context whose DB handle is set, `clearCart` empties the
in-memory snapshot, removes the fast-tier slot, and clears the durable
tier in the same synchronous step — the durable clear is logged
immediately rather than routed through the debounce schedule, whose
pending handle is untouched.  The operation is total, so calling it on
an already-empty snapshot is error-free and leaves the snapshot empty. -/
theorem C8_clearCart_immediate (st : State) (hdb : st.db = true) :
    (clearCart st).memory = [] ∧
    (clearCart st).fast = none ∧
    (clearCart st).durable = [] ∧
    (clearCart st).writes = st.writes ++ [DurableOp.clearAll] ∧
    (clearCart st).pending = st.pending := by
  unfold clearCart
  simp [hdb]

/-- Concrete instantiation of `C8_clearCart_immediate` on the freshly
initialized (already empty) context. -/
theorem C8_clearCart_immediate_witness :
    (clearCart State.init).memory = [] ∧
    (clearCart State.init).fast = none ∧
    (clearCart State.init).durable = [] ∧
    (clearCart State.init).writes = State.init.writes ++ [DurableOp.clearAll] ∧
    (clearCart State.init).pending = State.init.pending :=
  C8_clearCart_immediate State.init rfl

/-- C10: `clearCart` does not cancel the pending debounced durable
write.  In the execution addItem(laptop); clearCart(); timer-fires, the
leftover write repopulates the durable tier with the pre-clear snapshot
while the in-memory snapshot and the fast tier stay empty. -/
theorem C10_clearCart_stale_resync :
    (timerFire (clearCart (addItemS laptop State.init))).memory = [] ∧
    (timerFire (clearCart (addItemS laptop State.init))).fast = none ∧
    (timerFire (clearCart (addItemS laptop State.init))).durable =
      [laptopItem] ∧
    (timerFire (clearCart (addItemS laptop State.init))).durable ≠ [] := by
  refine ⟨rfl, rfl, by decide, by decide⟩

/-- C5 counterexample: with stale fast-tier data `[laptopItem]` and an
EMPTY durable read result, cold start keeps the stale snapshot instead
of replacing it with the (empty) durable result, and does not touch the
fast tier — the durable read `onsuccess` only acts when
`result.length > 0`. -/
theorem C5_coldLoad_empty_counterexample :
    (coldLoad (some [laptopItem]) []).memory = [laptopItem] ∧
    (coldLoad (some [laptopItem]) []).fast = some [laptopItem] ∧
    [laptopItem] ≠ ([] : Snapshot) := by
  refine ⟨by decide, by decide, by decide⟩

/-- C5 amended: when the durable read completes with a NON-EMPTY
result, the in-memory snapshot is replaced by it and it is mirrored to
the fast tier; with an empty durable result the fast-tier-loaded
snapshot and the fast tier are left as they were; in both cases
`loading` ends up false. -/
theorem C5_coldLoad_amended (fastStored : Option Snapshot) (d : Snapshot) :
    (d ≠ [] → coldLoad fastStored d =
      { memory := d, fast := some d, loading := false }) ∧
    (d = [] → coldLoad fastStored d =
      { memory := (match fastStored with | some s => s | none => []),
        fast := fastStored, loading := false }) ∧
    (coldLoad fastStored d).loading = false := by
  unfold coldLoad
  match d with
  | [] => simp
  | x :: t => simp

/-- Concrete instantiation of `C5_coldLoad_amended`: a non-empty
durable result overrides a different fast-tier snapshot. -/
theorem C5_coldLoad_amended_witness :
    coldLoad (some []) [laptopItem] =
      { memory := [laptopItem], fast := some [laptopItem],
        loading := false } :=
  (C5_coldLoad_amended (some []) [laptopItem]).1 (by decide)

/-- C2 counterexample: in the hybrid variant, `addItem` posts its
`CART_UPDATED` notification in the same synchronous step as the
mutation, while the durable write is merely pending and no durable
write has been performed; the notification also stands when the
pending durable write later fails. -/
theorem C2_notify_before_durable_counterexample :
    (addItemS laptop State.init).sent = [[laptopItem]] ∧
    (addItemS laptop State.init).writes = [] ∧
    (addItemS laptop State.init).pending = some [laptopItem] ∧
    (timerFireFail (addItemS laptop State.init)).sent = [[laptopItem]] ∧
    (timerFireFail (addItemS laptop State.init)).writes = [] := by
  refine ⟨by decide, rfl, by decide, by decide, rfl⟩

/-- C2 amended: in the hybrid variant every mutation publishes the
resulting snapshot immediately at commit time — before any durable
write for it has been performed (`writes` unchanged, the durable write
only pending); in the IndexedDB variant `addItem` publishes its bare
signal only when the awaited durable put succeeds and publishes nothing
when it fails. -/
theorem C2_notify_amended (p : Product) (i : Nat) (q : Int) (hq : 1 ≤ q)
    (st : State) (ist : IDB.IState) (hdb : ist.db = true) :
    ((addItemS p st).sent = st.sent ++ [(addItemS p st).memory] ∧
      (addItemS p st).writes = st.writes ∧
      (addItemS p st).pending = some (addItemS p st).memory) ∧
    ((updateQuantityS i q st).sent =
        st.sent ++ [(updateQuantityS i q st).memory] ∧
      (updateQuantityS i q st).writes = st.writes) ∧
    ((removeItemS i st).sent = st.sent ++ [(removeItemS i st).memory] ∧
      (removeItemS i st).writes = st.writes) ∧
    ((clearCart st).sent = st.sent ++ [[]]) ∧
    ((IDB.addItem p true ist).notifs = ist.notifs + 1 ∧
      (IDB.addItem p false ist).notifs = ist.notifs) := by
  refine ⟨⟨?_, ?_, ?_⟩, ⟨?_, ?_⟩, ⟨?_, ?_⟩, ?_, ⟨?_, ?_⟩⟩
  all_goals
    simp [addItemS, updateQuantityS, removeItemS, clearCart, updateStorage,
          notifyOtherTabs, syncToIndexedDB, IDB.addItem, hdb,
          not_lt.mpr hq]

/-- Concrete instantiation of `C2_notify_amended` on fresh contexts. -/
theorem C2_notify_amended_witness :
    (addItemS laptop State.init).sent =
      State.init.sent ++ [(addItemS laptop State.init).memory] ∧
    (IDB.addItem laptop false
        { memory := [], durable := [], notifs := 0, db := true }).notifs = 0 :=
  ⟨(C2_notify_amended laptop 1 1 (by decide) State.init
      { memory := [], durable := [], notifs := 0, db := true } rfl).1.1,
   (C2_notify_amended laptop 1 1 (by decide) State.init
      { memory := [], durable := [], notifs := 0, db := true } rfl).2.2.2.2.2⟩

/-- A scheduling mutation leaves the event logs and the DB flag alone
and ends with its own new snapshot both committed and captured by the
(unique) pending debounce handle. -/
theorem runOp_schedules (op : DebouncedOp) (st : State)
    (h : op.schedules = true) :
    (runOp op st).pending = some (runOp op st).memory ∧
    (runOp op st).writes = st.writes ∧
    (runOp op st).db = st.db := by
  match op with
  | DebouncedOp.add p =>
    simp [runOp, addItemS, updateStorage, notifyOtherTabs, syncToIndexedDB]
  | DebouncedOp.upd i q =>
    have hq : 1 ≤ q := by simpa [DebouncedOp.schedules] using h
    simp [runOp, updateQuantityS, updateStorage, notifyOtherTabs,
          syncToIndexedDB, not_lt.mpr hq]
  | DebouncedOp.rem i =>
    simp [runOp, removeItemS, updateStorage, notifyOtherTabs,
          syncToIndexedDB]

/-- Over a whole burst of scheduling mutations, no durable write is
performed, the DB flag is untouched, and the single pending handle
holds exactly the final snapshot. -/
theorem runOps_burst (ops : List DebouncedOp) (hne : ops ≠ [])
    (hsched : ∀ op ∈ ops, op.schedules = true) (st : State) :
    (runOps ops st).pending = some (runOps ops st).memory ∧
    (runOps ops st).writes = st.writes ∧
    (runOps ops st).db = st.db := by
  induction ops generalizing st with
  | nil => exact absurd rfl hne
  | cons op rest ih =>
    have hop : op.schedules = true := hsched op (by simp)
    match rest with
    | [] =>
      simpa [runOps] using runOp_schedules op st hop
    | op2 :: rest2 =>
      have hrest : ∀ o ∈ op2 :: rest2, o.schedules = true :=
        fun o ho => hsched o (by simp [ho])
      have hstep := runOp_schedules op st hop
      have htail := ih (by simp) hrest (runOp op st)
      have hrw : runOps (op :: op2 :: rest2) st =
          runOps (op2 :: rest2) (runOp op st) := rfl
      rw [hrw]
      exact ⟨htail.1, htail.2.1.trans hstep.2.1, htail.2.2.trans hstep.2.2⟩

/-- C3 counterexample: the two-mutation burst addItem(laptop);
clearCart() — the second within the debounce window of the first —
performs TWO durable writes (the immediate clear of `clearCart` and the
leftover debounced put), and the final durable write carries the
snapshot of the FIRST mutation, not the final (empty) one. -/
theorem C3_burst_with_clear_counterexample :
    (timerFire (clearCart (addItemS laptop State.init))).writes =
      [DurableOp.clearAll, DurableOp.putAll [laptopItem]] ∧
    (timerFire (clearCart (addItemS laptop State.init))).memory = [] ∧
    ([DurableOp.clearAll, DurableOp.putAll [laptopItem]] : List DurableOp).length ≠ 1 ∧
    DurableOp.putAll [laptopItem] ≠ DurableOp.putAll ([] : Snapshot) := by
  refine ⟨by decide, rfl, by decide, by decide⟩

/-- C3 amended: for every non-empty burst of scheduling mutations drawn
from `addItem`/`updateQuantity`/`removeItem` (each within the debounce
window of the previous one, so the timer never fires inside the burst),
no durable write happens during the burst, at most one debounce handle
is ever pending (the model's single `Option` slot, mirroring the
clearTimeout-before-setTimeout discipline of the source), and when the
timer finally fires exactly one durable write is performed, carrying
exactly the final snapshot. -/
theorem C3_debounce_batching_amended (ops : List DebouncedOp)
    (hne : ops ≠ []) (hsched : ∀ op ∈ ops, op.schedules = true)
    (st : State) (hdb : st.db = true) :
    (runOps ops st).writes = st.writes ∧
    (timerFire (runOps ops st)).writes =
      st.writes ++ [DurableOp.putAll (runOps ops st).memory] ∧
    (timerFire (runOps ops st)).durable = (runOps ops st).memory ∧
    (timerFire (runOps ops st)).pending = none := by
  obtain ⟨hp, hw, hdbeq⟩ := runOps_burst ops hne hsched st
  have hdb2 : (runOps ops st).db = true := hdbeq.trans hdb
  refine ⟨hw, ?_, ?_, ?_⟩ <;>
    simp [timerFire, hp, hdb2, hw]

/-- Concrete instantiation of `C3_debounce_batching_amended`: the burst
addItem(laptop); updateQuantity(1, 5) yields, once the timer fires, the
single durable write of the final snapshot (one Laptop line of
quantity 5). -/
theorem C3_debounce_batching_amended_witness :
    (runOps [DebouncedOp.add laptop, DebouncedOp.upd 1 5]
        State.init).writes = State.init.writes ∧
    (timerFire (runOps [DebouncedOp.add laptop, DebouncedOp.upd 1 5]
        State.init)).writes =
      State.init.writes ++ [DurableOp.putAll
        (runOps [DebouncedOp.add laptop, DebouncedOp.upd 1 5]
          State.init).memory] ∧
    (timerFire (runOps [DebouncedOp.add laptop, DebouncedOp.upd 1 5]
        State.init)).durable =
      (runOps [DebouncedOp.add laptop, DebouncedOp.upd 1 5]
        State.init).memory ∧
    (timerFire (runOps [DebouncedOp.add laptop, DebouncedOp.upd 1 5]
        State.init)).pending = none :=
  C3_debounce_batching_amended [DebouncedOp.add laptop, DebouncedOp.upd 1 5]
    (by decide) (by intro op hop; fin_cases hop <;> decide) State.init rfl

end Hybrid

namespace IDB

open Cart

/-- C1 (code bug): in the IndexedDB variant, when the durable put of
`updateQuantity(1, 5)` fails on a cart holding one Laptop of quantity 1,
the `catch` rollback overwrites each quantity with itself, so the
in-memory snapshot KEEPS the optimistic quantity 5 instead of being
restored to the pre-mutation snapshot, and `total()` moves from 999 to
4995 instead of returning to 999. -/
theorem C1_updateQuantity_rollback_bug :
    (IDB.updateQuantity 1 5 false
      { memory := [laptopItem], durable := [laptopItem],
        notifs := 0, db := true }).memory =
      [{ id := 1, name := "Laptop", price := 999, quantity := 5 }] ∧
    (IDB.updateQuantity 1 5 false
      { memory := [laptopItem], durable := [laptopItem],
        notifs := 0, db := true }).memory ≠ [laptopItem] ∧
    Cart.total (IDB.updateQuantity 1 5 false
      { memory := [laptopItem], durable := [laptopItem],
        notifs := 0, db := true }).memory = 4995 ∧
    Cart.total [laptopItem] = 999 := by
  refine ⟨by decide, by decide, by decide, by decide⟩

end IDB

namespace Cart

/-- Folding the running total from any accumulator equals the
accumulator plus the sum of the per-item products. -/
theorem foldl_total_eq (s : Snapshot) (a : Int) :
    s.foldl (fun sum item => sum + item.price * item.quantity) a =
      a + (s.map (fun it => it.price * it.quantity)).sum := by
  induction s generalizing a with
  | nil => simp
  | cons x t ih => simp [List.foldl_cons, ih, add_assoc]

/-- `total` computes the sum of `price * quantity` over the snapshot. -/
theorem total_eq_sum (s : Snapshot) :
    total s = (s.map (fun it => it.price * it.quantity)).sum := by
  unfold total
  rw [foldl_total_eq]
  simp

/-- Every item of a reachable snapshot has non-negative price and
quantity at least 1. -/
theorem reachable_item_bounds {s : Snapshot} (h : Reachable s) :
    ∀ it ∈ s, 0 ≤ it.price ∧ 1 ≤ it.quantity := by
  induction h with
  | empty => intro it hit; simp at hit
  | @add p hp s hr ih =>
    intro it hit
    unfold addItem at hit
    by_cases hany : s.any (fun item => item.id == p.id) = true
    · rw [if_pos hany] at hit
      obtain ⟨y, hy, hfy⟩ := List.mem_map.mp hit
      obtain ⟨hyp, hyq⟩ := ih y hy
      have hfy2 : (if (y.id == p.id) = true
          then { y with quantity := y.quantity + 1 } else y) = it := hfy
      by_cases hid : (y.id == p.id) = true
      · rw [if_pos hid] at hfy2
        rw [← hfy2]
        exact ⟨hyp, by show (1 : Int) ≤ y.quantity + 1; omega⟩
      · rw [if_neg hid] at hfy2
        rw [← hfy2]
        exact ⟨hyp, hyq⟩
    · rw [if_neg hany] at hit
      rcases List.mem_append.mp hit with hmem | hmem
      · exact ih it hmem
      · simp only [List.mem_singleton] at hmem
        subst hmem
        exact ⟨hp, le_refl 1⟩
  | @upd productId quantity s hr ih =>
    intro it hit
    unfold updateQuantity at hit
    by_cases hq : quantity < 1
    · rw [if_pos hq] at hit
      exact ih it hit
    · rw [if_neg hq] at hit
      obtain ⟨y, hy, hfy⟩ := List.mem_map.mp hit
      obtain ⟨hyp, hyq⟩ := ih y hy
      have hfy2 : (if (y.id == productId) = true
          then { y with quantity := quantity } else y) = it := hfy
      by_cases hid : (y.id == productId) = true
      · rw [if_pos hid] at hfy2
        rw [← hfy2]
        exact ⟨hyp, not_lt.mp hq⟩
      · rw [if_neg hid] at hfy2
        rw [← hfy2]
        exact ⟨hyp, hyq⟩
  | @rem productId s hr ih =>
    intro it hit
    unfold removeItem at hit
    exact ih it (List.mem_of_mem_filter hit)
  | clear hr =>
    intro it hit
    simp at hit

/-- C9: for every snapshot reachable from the empty snapshot through
the four mutation operations (with added products priced non-negatively,
as the claim assumes), `total` equals the sum of `price * quantity` over
the line items and is non-negative. -/
theorem C9_total_nonneg {s : Snapshot} (h : Reachable s) :
    total s = (s.map (fun it => it.price * it.quantity)).sum ∧
    0 ≤ total s := by
  refine ⟨total_eq_sum s, ?_⟩
  rw [total_eq_sum]
  apply List.sum_nonneg
  intro x hx
  obtain ⟨it, hit, hfx⟩ := List.mem_map.mp hx
  obtain ⟨hp, hq⟩ := reachable_item_bounds h it hit
  rw [← hfx]
  exact mul_nonneg hp (le_trans (by norm_num) hq)

/-- Concrete instantiation of `C9_total_nonneg` on the reachable
snapshot obtained by one `addItem laptop` from the empty cart. -/
theorem C9_total_nonneg_witness :
    total (addItem laptop []) =
      ((addItem laptop []).map (fun it => it.price * it.quantity)).sum ∧
    0 ≤ total (addItem laptop []) :=
  C9_total_nonneg (Reachable.add laptop (by decide) Reachable.empty)

end Cart

